import Mathlib

/-!
Verification of the Jamabandi land-record extractor (`main.py`,
`land_record_crud.py`, `models.py`) against its natural-language
specification.

The Protocol Session Engine (`JamabandiDataExtractor`) is embedded as pure
functions over an explicit `TokenSet` state; each HTTP response is modelled
by the data its xpath extraction would yield.  The Resolution Orchestrator
(`extract_data`) and the `__main__` flow are embedded as pure functions that
additionally record the trace of requests that would hit the transport.
Python falsy checks (`if not x`) on optional strings are modelled by
`truthy`; Python dicts built by comprehension are modelled by insertion-order
association lists with last-write-wins (`pyDict`).
-/

namespace Jamabandi

/-- Python truthiness of an optional string (`None` and `""` are falsy). -/
def truthy : Option String → Bool
  | none => false
  | some s => s != ""

/-- The four hidden-form continuity tokens held by `JamabandiDataExtractor`
(`self.viewstate`, `self.event_arg`, `self.event_validation`,
`self.viewstate_generator`). -/
structure TokenSet where
  viewstate : Option String
  event_arg : Option String
  event_validation : Option String
  viewstate_generator : Option String
deriving Repr, DecidableEq

/-- The freshly constructed extractor state (`__init__`): all tokens `None`. -/
def initState : TokenSet :=
  { viewstate := none, event_arg := none, event_validation := none,
    viewstate_generator := none }

/-- A Python dict assignment: overwrite an existing key in place, else append. -/
def dictSet (d : List (Option String × Option String)) (k v : Option String) :
    List (Option String × Option String) :=
  if d.any (fun p => p.1 == k) then
    d.map (fun p => if p.1 == k then (k, v) else p)
  else d ++ [(k, v)]

/-- A Python dict comprehension over (text, value) pairs: insertion order,
later duplicate keys overwrite earlier ones. -/
def pyDict (l : List (Option String × Option String)) :
    List (Option String × Option String) :=
  l.foldl (fun d p => dictSet d p.1 p.2) []

/-- Python `k in d`. -/
def dictMem (d : List (Option String × Option String)) (k : Option String) : Bool :=
  d.any (fun p => p.1 == k)

/-- Python `d[k]` (used only after a membership check in the source). -/
def dictGetV (d : List (Option String × Option String)) (k : Option String) :
    Option String :=
  match d.find? (fun p => p.1 == k) with
  | some p => p.2
  | none => none

/-- A POST form payload as built by the source's `data = {...}` dict literals:
keys are the literal field names, values are Python `str | None`. -/
def Payload := List (String × Option String)
deriving instance Repr, DecidableEq for Payload

/-- Lookup of a payload field (`some v` when the key is present with value `v`). -/
def payloadGet (pl : List (String × Option String)) (k : String) :
    Option (Option String) :=
  (pl.find? (fun p => p.1 == k)).map (fun p => p.2)

/-- Errors a step can raise: `FormFieldNotFoundException(missing_fields)` and
the `AttributeError` hit when a candidate row has no link (`None.split`). -/
inductive StepError where
  | formFieldNotFound (missing_fields : List String)
  | attrError
deriving Repr, DecidableEq

deriving instance DecidableEq for Except

/-- What the xpath extraction of the initial GET response yields
(`get_jamabandi_page`): the four hidden input values, each possibly absent. -/
structure InitResponse where
  viewstate : Option String
  event_arg : Option String
  event_validation : Option String
  viewstate_generator : Option String
deriving Repr, DecidableEq

/-- What the xpath extraction of a listing-step response yields: the two
refreshed tokens and the dropdown's `(text, value)` option pairs. -/
structure ListResponse where
  viewstate : Option String
  event_validation : Option String
  options : List (Option String × Option String)
deriving Repr, DecidableEq

/-- Response of the years step: tokens plus the `@value` list that
`getall()` returns (only present values, hence plain strings). -/
structure YearsResponse where
  viewstate : Option String
  event_validation : Option String
  years : List String
deriving Repr, DecidableEq

/-- One row of the candidate (`GridView`) table: the link `@href`, and the
second and third cell texts. -/
structure NakalRow where
  href : Option String
  khewat : Option String
  khatoni : Option String
deriving Repr, DecidableEq

/-- Response of the candidate-listing step. -/
structure NakalsResponse where
  viewstate : Option String
  event_validation : Option String
  rows : List NakalRow
deriving Repr, DecidableEq

/-- Response of the candidate-selection step (tokens only). -/
structure TokenResponse where
  viewstate : Option String
  event_validation : Option String
deriving Repr, DecidableEq

/-- What the xpath extraction of the final document body yields
(the five `lbl...` span texts). -/
structure DocumentResponse where
  villege : Option String
  hadbast : Option String
  tehsil : Option String
  district : Option String
  year : Option String
deriving Repr, DecidableEq

/-- `get_jamabandi_page`: assigns all four extracted values to the instance
fields FIRST, then validates `viewstate`, `viewstate_generator` and
`event_validation`; on failure the exception propagates with the fields
already overwritten. -/
def get_jamabandi_page (_st : TokenSet) (resp : InitResponse) :
    TokenSet × Except StepError Unit :=
  let st1 : TokenSet :=
    { viewstate := resp.viewstate, event_arg := resp.event_arg,
      event_validation := resp.event_validation,
      viewstate_generator := resp.viewstate_generator }
  if !truthy st1.viewstate || !truthy st1.viewstate_generator
      || !truthy st1.event_validation then
    (st1, .error (.formFieldNotFound ["viewstate", "event_validation",
                                      "viewstate_generator"]))
  else (st1, .ok ())
  -- `st` is discarded by the source: every field is reassigned before the check


/-- The `data` dict of `get_districts`. -/
def get_districts_payload (st : TokenSet) : List (String × Option String) :=
  [("__EVENTTARGET", some "ctl00$ContentPlaceHolder1$RdobtnKhasra"),
   ("__EVENTARGUMENT", some ""),
   ("__LASTFOCUS", some ""),
   ("__VIEWSTATE", st.viewstate),
   ("__VIEWSTATEGENERATOR", st.viewstate_generator),
   ("__SCROLLPOSITIONX", some "0"),
   ("__SCROLLPOSITIONY", some "0"),
   ("__VIEWSTATEENCRYPTED", some ""),
   ("__EVENTVALIDATION", st.event_validation),
   ("ctl00$ContentPlaceHolder1$a", some "RdobtnKhasra"),
   ("ctl00$ContentPlaceHolder1$ddldname", some "-1")]

/-- `get_districts`: validates the refreshed `viewstate`/`event_validation`
before assigning them; then builds the district dict and raises on empty. -/
def get_districts (st : TokenSet) (resp : ListResponse) :
    TokenSet × Except StepError (List (Option String × Option String)) :=
  if !truthy resp.viewstate || !truthy resp.event_validation then
    (st, .error (.formFieldNotFound ["viewstate", "event_validation"]))
  else
    let st1 := { st with viewstate := resp.viewstate,
                         event_validation := resp.event_validation }
    let districts := pyDict resp.options
    if districts.isEmpty then
      (st1, .error (.formFieldNotFound ["districts"]))
    else (st1, .ok districts)

/-- The `data` dict of `get_sub_districts`. -/
def get_sub_districts_payload (st : TokenSet) (district_id : Option String) :
    List (String × Option String) :=
  [("__EVENTTARGET", some "ctl00$ContentPlaceHolder1$ddldname"),
   ("__EVENTARGUMENT", st.event_arg),
   ("__LASTFOCUS", some ""),
   ("__VIEWSTATE", st.viewstate),
   ("__VIEWSTATEGENERATOR", st.viewstate_generator),
   ("__SCROLLPOSITIONX", some "0"),
   ("__SCROLLPOSITIONY", some "0"),
   ("__VIEWSTATEENCRYPTED", some ""),
   ("__EVENTVALIDATION", st.event_validation),
   ("ctl00$ContentPlaceHolder1$a", some "RdobtnKhasra"),
   ("ctl00$ContentPlaceHolder1$ddldname", district_id)]

/-- `get_sub_districts`. -/
def get_sub_districts (st : TokenSet) (resp : ListResponse) :
    TokenSet × Except StepError (List (Option String × Option String)) :=
  if !truthy resp.viewstate || !truthy resp.event_validation then
    (st, .error (.formFieldNotFound ["viewstate", "event_validation"]))
  else
    let st1 := { st with viewstate := resp.viewstate,
                         event_validation := resp.event_validation }
    let sub_districts := pyDict resp.options
    if sub_districts.isEmpty then
      (st1, .error (.formFieldNotFound ["sub-districts"]))
    else (st1, .ok sub_districts)

/-- The `data` dict of `get_villeges`. -/
def get_villeges_payload (st : TokenSet)
    (district_id sub_district_id : Option String) :
    List (String × Option String) :=
  [("__EVENTTARGET", some "ctl00$ContentPlaceHolder1$ddltname"),
   ("__EVENTARGUMENT", st.event_arg),
   ("__LASTFOCUS", some ""),
   ("__VIEWSTATE", st.viewstate),
   ("__VIEWSTATEGENERATOR", st.viewstate_generator),
   ("__SCROLLPOSITIONX", some "0"),
   ("__SCROLLPOSITIONY", some "0"),
   ("__VIEWSTATEENCRYPTED", some ""),
   ("__EVENTVALIDATION", st.event_validation),
   ("ctl00$ContentPlaceHolder1$a", some "RdobtnKhasra"),
   ("ctl00$ContentPlaceHolder1$ddldname", district_id),
   ("ctl00$ContentPlaceHolder1$ddltname", sub_district_id)]

/-- `get_villeges`. -/
def get_villeges (st : TokenSet) (resp : ListResponse) :
    TokenSet × Except StepError (List (Option String × Option String)) :=
  if !truthy resp.viewstate || !truthy resp.event_validation then
    (st, .error (.formFieldNotFound ["viewstate", "event_validation"]))
  else
    let st1 := { st with viewstate := resp.viewstate,
                         event_validation := resp.event_validation }
    let villages := pyDict resp.options
    if villages.isEmpty then
      (st1, .error (.formFieldNotFound ["villeges"]))
    else (st1, .ok villages)

/-- The `data` dict of `get_years`. -/
def get_years_payload (st : TokenSet)
    (district_id sub_district_id villege_id : Option String) :
    List (String × Option String) :=
  [("__EVENTTARGET", some "ctl00$ContentPlaceHolder1$ddlvname"),
   ("__EVENTARGUMENT", st.event_arg),
   ("__LASTFOCUS", some ""),
   ("__VIEWSTATE", st.viewstate),
   ("__VIEWSTATEGENERATOR", st.viewstate_generator),
   ("__SCROLLPOSITIONX", some "0"),
   ("__SCROLLPOSITIONY", some "0"),
   ("__VIEWSTATEENCRYPTED", some ""),
   ("__EVENTVALIDATION", st.event_validation),
   ("ctl00$ContentPlaceHolder1$a", some "RdobtnKhasra"),
   ("ctl00$ContentPlaceHolder1$ddldname", district_id),
   ("ctl00$ContentPlaceHolder1$ddltname", sub_district_id),
   ("ctl00$ContentPlaceHolder1$ddlvname", villege_id)]

/-- `get_years`. -/
def get_years (st : TokenSet) (resp : YearsResponse) :
    TokenSet × Except StepError (List String) :=
  if !truthy resp.viewstate || !truthy resp.event_validation then
    (st, .error (.formFieldNotFound ["viewstate", "event_validation"]))
  else
    let st1 := { st with viewstate := resp.viewstate,
                         event_validation := resp.event_validation }
    if resp.years.isEmpty then
      (st1, .error (.formFieldNotFound ["years"]))
    else (st1, .ok resp.years)

/-- The `data` dict of `get_khasras`. -/
def get_khasras_payload (st : TokenSet)
    (district_id sub_district_id villege_id : Option String) (year : String) :
    List (String × Option String) :=
  [("__EVENTTARGET", some "ctl00$ContentPlaceHolder1$ddlPeriod"),
   ("__EVENTARGUMENT", st.event_arg),
   ("__LASTFOCUS", some ""),
   ("__VIEWSTATE", st.viewstate),
   ("__VIEWSTATEGENERATOR", st.viewstate_generator),
   ("__SCROLLPOSITIONX", some "0"),
   ("__SCROLLPOSITIONY", some "0"),
   ("__VIEWSTATEENCRYPTED", some ""),
   ("__EVENTVALIDATION", st.event_validation),
   ("ctl00$ContentPlaceHolder1$a", some "RdobtnKhasra"),
   ("ctl00$ContentPlaceHolder1$ddldname", district_id),
   ("ctl00$ContentPlaceHolder1$ddltname", sub_district_id),
   ("ctl00$ContentPlaceHolder1$ddlvname", villege_id),
   ("ctl00$ContentPlaceHolder1$ddlPeriod", some year)]

/-- `get_khasras`. -/
def get_khasras (st : TokenSet) (resp : ListResponse) :
    TokenSet × Except StepError (List (Option String × Option String)) :=
  if !truthy resp.viewstate || !truthy resp.event_validation then
    (st, .error (.formFieldNotFound ["viewstate", "event_validation"]))
  else
    let st1 := { st with viewstate := resp.viewstate,
                         event_validation := resp.event_validation }
    let khasras := pyDict resp.options
    if khasras.isEmpty then
      (st1, .error (.formFieldNotFound ["khasras"]))
    else (st1, .ok khasras)

/-- The `data` dict of `get_nakals`. -/
def get_nakals_payload (st : TokenSet)
    (district_id sub_district_id villege_id : Option String) (year : String)
    (khasra_id : Option String) : List (String × Option String) :=
  [("__EVENTTARGET", some "ctl00$ContentPlaceHolder1$ddlkhasra"),
   ("__EVENTARGUMENT", st.event_arg),
   ("__LASTFOCUS", some ""),
   ("__VIEWSTATE", st.viewstate),
   ("__VIEWSTATEGENERATOR", st.viewstate_generator),
   ("__SCROLLPOSITIONX", some "0"),
   ("__SCROLLPOSITIONY", some "0"),
   ("__VIEWSTATEENCRYPTED", some ""),
   ("__EVENTVALIDATION", st.event_validation),
   ("ctl00$ContentPlaceHolder1$a", some "RdobtnKhasra"),
   ("ctl00$ContentPlaceHolder1$ddldname", district_id),
   ("ctl00$ContentPlaceHolder1$ddltname", sub_district_id),
   ("ctl00$ContentPlaceHolder1$ddlvname", villege_id),
   ("ctl00$ContentPlaceHolder1$ddlPeriod", some year),
   ("ctl00$ContentPlaceHolder1$ddlkhasra", khasra_id)]

/-- Python `s.split(sep)` for a one-character separator, over the string's
character list. -/
def pySplitChar (c : Char) : List Char → List (List Char)
  | [] => [[]]
  | x :: xs =>
    let r := pySplitChar c xs
    if x = c then [] :: r
    else
      match r with
      | [] => [[x]]
      | y :: ys => (x :: y) :: ys

/-- One left-to-right scan of Python `s.replace("\x27)", "")`: on a match the
two pattern characters are dropped (non-overlapping), otherwise one character
is kept.  Fuelled by the remaining length so the recursion is structural. -/
def removeSelTailFuel : Nat → List Char → List Char
  | 0, l => l
  | _, [] => []
  | _, [c] => [c]
  | fuel + 1, c1 :: c2 :: rest =>
    if c1 = '\x27' && c2 = ')' then removeSelTailFuel fuel rest
    else c1 :: removeSelTailFuel fuel (c2 :: rest)

/-- Python `s.replace("\x27)", "")`. -/
def removeSelTail (l : List Char) : List Char :=
  removeSelTailFuel l.length l

/-- `'Select$' + nakal_id.split('$')[-1].replace("\x27)", "")` applied to a
row's `@href` string. -/
def mkNakalId (href : String) : String :=
  "Select$" ++ String.mk (removeSelTail ((pySplitChar '$' href.data).getLastD []))

/-- The per-row confirmation fields collapsed into one mutable dict
(`nakal_detail`); values are Python `str | None`. -/
structure NakalDetail where
  khewat_no : Option String
  khatoni_no : Option String
deriving Repr, DecidableEq

/-- The `for nakal_table_row in nakal_table_rows` loop of `get_nakals`:
appends one id per row and overwrites both detail fields each iteration; a
row with no link raises `AttributeError` (modelled as `attrError`). -/
def nakalsLoop : List NakalRow → List String → NakalDetail →
    Except StepError (List String × NakalDetail)
  | [], nakals, nakal_detail => .ok (nakals, nakal_detail)
  | row :: rest, nakals, _ =>
    match row.href with
    | none => .error .attrError
    | some h =>
      nakalsLoop rest (nakals ++ [mkNakalId h])
        { khewat_no := row.khewat, khatoni_no := row.khatoni }

/-- `get_nakals`: refreshes (validated) tokens, then folds the candidate
table rows; raises `FormFieldNotFoundException(['nakals', 'nakal_detail'])`
when no candidate row was found. -/
def get_nakals (st : TokenSet) (resp : NakalsResponse) :
    TokenSet × Except StepError (List String × NakalDetail) :=
  if !truthy resp.viewstate || !truthy resp.event_validation then
    (st, .error (.formFieldNotFound ["viewstate", "event_validation"]))
  else
    let st1 := { st with viewstate := resp.viewstate,
                         event_validation := resp.event_validation }
    match nakalsLoop resp.rows [] { khewat_no := some "", khatoni_no := some "" } with
    | .error e => (st1, .error e)
    | .ok (nakals, nakal_detail) =>
      if nakals.isEmpty then
        (st1, .error (.formFieldNotFound ["nakals", "nakal_detail"]))
      else (st1, .ok (nakals, nakal_detail))

/-- The `data` dict of `select_nakals`: `__EVENTARGUMENT` carries the chosen
candidate token, not the held event-argument token. -/
def select_nakals_payload (st : TokenSet)
    (district_id sub_district_id villege_id : Option String) (year : String)
    (khasra_id : Option String) (nakal_id : String) :
    List (String × Option String) :=
  [("__EVENTTARGET", some "ctl00$ContentPlaceHolder1$GridView1"),
   ("__EVENTARGUMENT", some nakal_id),
   ("__LASTFOCUS", some ""),
   ("__VIEWSTATE", st.viewstate),
   ("__VIEWSTATEGENERATOR", st.viewstate_generator),
   ("__SCROLLPOSITIONX", some "0"),
   ("__SCROLLPOSITIONY", some "0"),
   ("__VIEWSTATEENCRYPTED", some ""),
   ("__EVENTVALIDATION", st.event_validation),
   ("ctl00$ContentPlaceHolder1$a", some "RdobtnKhasra"),
   ("ctl00$ContentPlaceHolder1$ddldname", district_id),
   ("ctl00$ContentPlaceHolder1$ddltname", sub_district_id),
   ("ctl00$ContentPlaceHolder1$ddlvname", villege_id),
   ("ctl00$ContentPlaceHolder1$ddlPeriod", some year),
   ("ctl00$ContentPlaceHolder1$ddlkhasra", khasra_id)]

/-- `select_nakals`: sends the selection postback and refreshes (validated)
tokens; returns no data. -/
def select_nakals (st : TokenSet) (resp : TokenResponse) :
    TokenSet × Except StepError Unit :=
  if !truthy resp.viewstate || !truthy resp.event_validation then
    (st, .error (.formFieldNotFound ["viewstate", "event_validation"]))
  else
    let st1 := { st with viewstate := resp.viewstate,
                         event_validation := resp.event_validation }
    (st1, .ok ())

/-- The five cross-validation fields re-extracted from the fetched Nakal
document (`inner_details` of the output dict). -/
structure InnerDetails where
  villege : Option String
  hadbast_no : Option String
  tehsil : Option String
  district : Option String
  year : Option String
deriving Repr, DecidableEq

/-- The `output` dict assembled by `extract_data` on success. -/
structure Output where
  district_name : String
  district_code : Option String
  tehsil_name : String
  tehsil_code : Option String
  villege_name : String
  villege_code : Option String
  jamabandi_year : String
  khewat_no : Option String
  khatoni_no : Option String
  khasra_code : Option String
  khasra_no : String
  inner_details : InnerDetails
deriving Repr, DecidableEq

/-- The value `extract_data` delivers to its caller: the success dict, one of
the `return f'...'` strings, or a fatal process exit after the Retry Envelope
around a step exhausted its attempts on the step's deterministic failure
(`sys.exit` inside `retry_on_exception`). -/
inductive ExtractResult where
  | output (o : Output)
  | errString (msg : String)
  | fatalExit (e : StepError)
deriving Repr, DecidableEq

/-- One transport request issued by a step: the step's name and the form
payload it POSTs (empty for the two GET steps). -/
structure Request where
  step : String
  payload : List (String × Option String)
deriving Repr, DecidableEq

/-- The canned response each step of one run receives (the step sequence is
deterministic, so a run consumes exactly one response per step). -/
structure Env where
  initResp : InitResponse
  districtsResp : ListResponse
  subDistrictsResp : ListResponse
  villagesResp : ListResponse
  yearsResp : YearsResponse
  khasrasResp : ListResponse
  nakalsResp : NakalsResponse
  selectResp : TokenResponse
  document : DocumentResponse
deriving Repr, DecidableEq

/-- `extract_data`: drives the fixed step sequence, resolving each
caller-supplied name in the option set the step returns, and assembles the
output dict.  Each step is wrapped by `retry_on_exception` in the source;
under canned (deterministic) responses every attempt of a failing step fails
identically, so exhaustion is certain and a step failure is modelled directly
as the resulting fatal `sys.exit` (`fatalExit`).  The returned list is the
trace of transport requests issued (first attempts). -/
def extract_data (env : Env)
    (inp_district_name inp_sub_district_name inp_villege_name
     inp_khasra_no : String) : List Request × ExtractResult :=
  match get_jamabandi_page initState env.initResp with
  | (_, .error e) => ([{ step := "get_jamabandi_page", payload := [] }], .fatalExit e)
  | (st1, .ok _) =>
  let tr1 := [{ step := "get_jamabandi_page", payload := ([] : List (String × Option String)) },
              { step := "get_districts", payload := get_districts_payload st1 }]
  match get_districts st1 env.districtsResp with
  | (_, .error e) => (tr1, .fatalExit e)
  | (st2, .ok districts) =>
  if dictMem districts (some inp_district_name) = false then
    (tr1, .errString ("District name:" ++ inp_district_name ++ " not found!"))
  else
  let district_id := dictGetV districts (some inp_district_name)
  let tr2 := tr1 ++ [{ step := "get_sub_districts",
                       payload := get_sub_districts_payload st2 district_id }]
  match get_sub_districts st2 env.subDistrictsResp with
  | (_, .error e) => (tr2, .fatalExit e)
  | (st3, .ok sub_districts) =>
  if dictMem sub_districts (some inp_sub_district_name) = false then
    (tr2, .errString ("sub-district/tehsil name:" ++ inp_sub_district_name
                      ++ " not found!"))
  else
  let sub_district_id := dictGetV sub_districts (some inp_sub_district_name)
  let tr3 := tr2 ++ [{ step := "get_villeges",
                       payload := get_villeges_payload st3 district_id sub_district_id }]
  match get_villeges st3 env.villagesResp with
  | (_, .error e) => (tr3, .fatalExit e)
  | (st4, .ok villeges) =>
  if dictMem villeges (some inp_villege_name) = false then
    (tr3, .errString ("Villege name:" ++ inp_villege_name ++ " not found!"))
  else
  let villege_id := dictGetV villeges (some inp_villege_name)
  let tr4 := tr3 ++ [{ step := "get_years",
                       payload := get_years_payload st4 district_id sub_district_id villege_id }]
  match get_years st4 env.yearsResp with
  | (_, .error e) => (tr4, .fatalExit e)
  | (st5, .ok years) =>
  match years with
  | [] => (tr4, .errString "Year is empty!")
  | year0 :: _ =>
  let tr5 := tr4 ++ [{ step := "get_khasras",
                       payload := get_khasras_payload st5 district_id sub_district_id
                                    villege_id year0 }]
  match get_khasras st5 env.khasrasResp with
  | (_, .error e) => (tr5, .fatalExit e)
  | (st6, .ok khasras) =>
  if dictMem khasras (some inp_khasra_no) = false then
    (tr5, .errString ("Khasra number:" ++ inp_khasra_no ++ " not found!"))
  else
  let khasra_id := dictGetV khasras (some inp_khasra_no)
  let tr6 := tr5 ++ [{ step := "get_nakals",
                       payload := get_nakals_payload st6 district_id sub_district_id
                                    villege_id year0 khasra_id }]
  match get_nakals st6 env.nakalsResp with
  | (_, .error e) => (tr6, .fatalExit e)
  | (st7, .ok (nakals, nakal_detail)) =>
  match nakals with
  | [] => (tr6, .errString "Nakal is empty!")
  | nakal0 :: _ =>
  let tr7 := tr6 ++ [{ step := "select_nakals",
                       payload := select_nakals_payload st7 district_id sub_district_id
                                    villege_id year0 khasra_id nakal0 }]
  match select_nakals st7 env.selectResp with
  | (_, .error e) => (tr7, .fatalExit e)
  | (_, .ok _) =>
  let tr8 := tr7 ++ [{ step := "get_nakal_html", payload := [] }]
  (tr8, .output
    { district_name := inp_district_name,
      district_code := district_id,
      tehsil_name := inp_sub_district_name,
      tehsil_code := sub_district_id,
      villege_name := inp_villege_name,
      villege_code := villege_id,
      jamabandi_year := year0,
      khewat_no := nakal_detail.khewat_no,
      khatoni_no := nakal_detail.khatoni_no,
      khasra_code := khasra_id,
      khasra_no := inp_khasra_no,
      inner_details :=
        { villege := env.document.villege,
          hadbast_no := env.document.hadbast,
          tehsil := env.document.tehsil,
          district := env.document.district,
          year := env.document.year } })

/-- Observable events of the `retry_on_exception` wrapper: an invocation of
the wrapped function and a `time.sleep(delay)`. -/
inductive RetryEvent where
  | call
  | sleep (d : Nat)
deriving Repr, DecidableEq

/-- Terminal outcome of the wrapper: the wrapped function's value, or the
`sys.exit(...)` reached after all attempts failed (carrying the saved `err`
detail of the last failure, `None` when no attempt ran). -/
inductive RetryOutcome (E A : Type) where
  | ok (a : A)
  | exited (err : Option E)
deriving Repr, DecidableEq

/-- The `while attempt < retries` loop of `retry_on_exception`'s `wrapper`.
The wrapped call is modelled as a function of the attempt index so that a
step may fail on some attempts and succeed on others; `fuel` counts the
remaining attempts (`retries - attempt`). -/
def retry_loop {E A : Type} (f : Nat → Except E A) (delay : Nat) :
    Nat → Nat → Option E → List RetryEvent → List RetryEvent × RetryOutcome E A
  | 0, _, err, evs => (evs, .exited err)
  | fuel + 1, attempt, _err, evs =>
    match f attempt with
    | .ok a => (evs ++ [.call], .ok a)
    | .error e =>
      retry_loop f delay fuel (attempt + 1) (some e)
        (evs ++ [.call, .sleep delay])

/-- `retry_on_exception(retries, delay)` applied to a wrapped call: performs
up to `retries` attempts, sleeping `delay` after each failure, and exits
fatally after the last failure. -/
def retry_on_exception {E A : Type} (retries delay : Nat)
    (f : Nat → Except E A) : List RetryEvent × RetryOutcome E A :=
  retry_loop f delay retries 0 none []

/-- The 16 data columns of a `land_records` row, with exactly the value types
the `data` dict in `__main__` supplies from a successful extraction. -/
structure RecordData where
  district_name : String
  district_code : Option String
  tehsil_name : String
  tehsil_code : Option String
  villege_name : String
  villege_code : Option String
  jamabandi_year : String
  khewat_no : Option String
  khatoni_no : Option String
  khasra_code : Option String
  khasra_no : String
  nakal_villege : Option String
  nakal_hadbast : Option String
  nakal_tehsil : Option String
  nakal_district : Option String
  nakal_year : Option String
deriving Repr, DecidableEq

/-- A persisted `LandRecord` row: primary key plus data columns. -/
structure LandRecord where
  id : Nat
  data : RecordData
deriving Repr, DecidableEq

/-- `LandRecordCRUD.search_records_by_input_data`: all rows matching the
four-part key. -/
def search_records_by_input_data (db : List LandRecord)
    (district_name tehsil_name villege_name khasra_no : String) :
    List LandRecord :=
  db.filter (fun r =>
    r.data.district_name == district_name
    && r.data.tehsil_name == tehsil_name
    && r.data.villege_name == villege_name
    && r.data.khasra_no == khasra_no)

/-- `LandRecordCRUD.create_record`: inserts a new row (autoincremented
primary key modelled as one more than the largest existing id). -/
def create_record (db : List LandRecord) (data : RecordData) :
    List LandRecord × LandRecord :=
  let new_id := (db.foldl (fun m r => max m r.id) 0) + 1
  let record : LandRecord := { id := new_id, data := data }
  (db ++ [record], record)

/-- `setattr` on the first row whose id matches (the primary-key `first()`
query of `update_record`). -/
def updateFirst : List LandRecord → Nat → RecordData → List LandRecord
  | [], _, _ => []
  | r :: rs, record_id, data =>
    if r.id == record_id then { r with data := data } :: rs
    else r :: updateFirst rs record_id data

/-- `LandRecordCRUD.update_record`: overwrite the columns of the row with the
given id; `none` when no such row exists. -/
def update_record (db : List LandRecord) (record_id : Nat) (data : RecordData) :
    List LandRecord × Option LandRecord :=
  match db.find? (fun r => r.id == record_id) with
  | some r => (updateFirst db record_id data, some { r with data := data })
  | none => (db, none)

/-- `LandRecordCRUD.create_record_by_checking_record`: return the cached row,
update it under force-refresh, or insert a fresh row when no match exists. -/
def create_record_by_checking_record (db : List LandRecord)
    (district_name tehsil_name villege_name khasra_no : String)
    (data : RecordData) (force_refresh : Bool) :
    List LandRecord × Option LandRecord :=
  let nakal_data := search_records_by_input_data db district_name tehsil_name
    villege_name khasra_no
  match nakal_data with
  | r0 :: _ =>
    if force_refresh = false then (db, some r0)
    else update_record db r0.id data
  | [] =>
    let (db1, record) := create_record db data
    (db1, some record)

/-- The `data` dict built in `__main__` from a successful extraction output. -/
def dataOf (out : Output) : RecordData :=
  { district_name := out.district_name,
    district_code := out.district_code,
    tehsil_name := out.tehsil_name,
    tehsil_code := out.tehsil_code,
    villege_name := out.villege_name,
    villege_code := out.villege_code,
    jamabandi_year := out.jamabandi_year,
    khewat_no := out.khewat_no,
    khatoni_no := out.khatoni_no,
    khasra_code := out.khasra_code,
    khasra_no := out.khasra_no,
    nakal_villege := out.inner_details.villege,
    nakal_hadbast := out.inner_details.hadbast_no,
    nakal_tehsil := out.inner_details.tehsil,
    nakal_district := out.inner_details.district,
    nakal_year := out.inner_details.year }

/-- What the `__main__` run finally prints: the cached row list, the saved
(created/updated/cached) row dict, one of the orchestrator's error strings,
or the fatal retry-exhaustion exit. -/
inductive MainResult where
  | cached (records : List LandRecord)
  | saved (record : Option LandRecord)
  | message (s : String)
  | fatal (e : StepError)
deriving Repr, DecidableEq

/-- The `__main__` flow: consult the Record Store first, scrape only when the
cache misses or force-refresh is set, and persist a successful extraction.
Returns the final database, the trace of transport requests issued, and the
printed result. -/
def main_flow (db : List LandRecord) (env : Env)
    (inp_district_name inp_sub_district_name inp_villege_name
     inp_khasra_no : String) (force_refresh : Bool) :
    List LandRecord × List Request × MainResult :=
  let nakal_data := search_records_by_input_data db inp_district_name
    inp_sub_district_name inp_villege_name inp_khasra_no
  if nakal_data.isEmpty || force_refresh then
    match extract_data env inp_district_name inp_sub_district_name
        inp_villege_name inp_khasra_no with
    | (tr, .output out) =>
      let (db1, record) := create_record_by_checking_record db
        inp_district_name inp_sub_district_name inp_villege_name
        inp_khasra_no (dataOf out) force_refresh
      (db1, tr, .saved record)
    | (tr, .errString s) => (db, tr, .message s)
    | (tr, .fatalExit e) => (db, tr, .fatal e)
  else (db, [], .cached nakal_data)

/-- The canned step-response sequence of the specification's end-to-end
example: district list with "DistrictA"→"01", sub-district list with
"TehsilA"→"001", village list with "VillageA"→"0284", one year "2022-2023",
record list with "6"→"6", one candidate row with confirmation fields
("3", "9"). -/
def envC4 : Env :=
  { initResp := { viewstate := some "vs0", event_arg := some "ea0",
                  event_validation := some "ev0",
                  viewstate_generator := some "vg0" },
    districtsResp := { viewstate := some "vs1", event_validation := some "ev1",
                       options := [(some "DistrictA", some "01")] },
    subDistrictsResp := { viewstate := some "vs2", event_validation := some "ev2",
                          options := [(some "TehsilA", some "001")] },
    villagesResp := { viewstate := some "vs3", event_validation := some "ev3",
                      options := [(some "VillageA", some "0284")] },
    yearsResp := { viewstate := some "vs4", event_validation := some "ev4",
                   years := ["2022-2023"] },
    khasrasResp := { viewstate := some "vs5", event_validation := some "ev5",
                     options := [(some "6", some "6")] },
    nakalsResp := { viewstate := some "vs6", event_validation := some "ev6",
                    rows := [{ href := some "Select$0\x27)", khewat := some "3",
                               khatoni := some "9" }] },
    selectResp := { viewstate := some "vs7", event_validation := some "ev7" },
    document := { villege := some "VillageA", hadbast := some "50",
                  tehsil := some "TehsilA", district := some "DistrictA",
                  year := some "2022-2023" } }

/-- The same canned sequence but with an empty candidate table. -/
def envEmptyNakals : Env :=
  { envC4 with nakalsResp := { viewstate := some "vs6",
                               event_validation := some "ev6", rows := [] } }

/-- Claim C4: on the fixed canned response sequence (district "DistrictA"→"01",
sub-district "TehsilA"→"001", village "VillageA"→"0284", year list
["2022-2023"], record list "6"→"6", one candidate row with confirmation
fields ("3","9")), `extract_data` with inputs
("DistrictA","TehsilA","VillageA","6") returns the resolved document result
whose chain codes are ("01","001","0284","6") and whose confirmation fields
(khewat_no, khatoni_no) are ("3","9"). -/
theorem C4_canned_run_resolves_chain :
    (extract_data envC4 "DistrictA" "TehsilA" "VillageA" "6").2 =
      .output
        { district_name := "DistrictA", district_code := some "01",
          tehsil_name := "TehsilA", tehsil_code := some "001",
          villege_name := "VillageA", villege_code := some "0284",
          jamabandi_year := "2022-2023",
          khewat_no := some "3", khatoni_no := some "9",
          khasra_code := some "6", khasra_no := "6",
          inner_details := { villege := some "VillageA", hadbast_no := some "50",
                             tehsil := some "TehsilA", district := some "DistrictA",
                             year := some "2022-2023" } } := by
  rfl

/-- Claim C3: `retry_on_exception(retries=3, delay=5)` around a step that
fails on every attempt performs exactly 3 attempts with the configured delay
of 5 between consecutive attempts (the source also sleeps once more after the
final failure), then terminates the run fatally via `sys.exit`, preserving
the detail of the last (third) failure. -/
theorem C3_retry_envelope_exhausts {E A : Type} (f : Nat → Except E A)
    (err : Nat → E) (hf : ∀ n, f n = .error (err n)) :
    retry_on_exception 3 5 f =
      ([.call, .sleep 5, .call, .sleep 5, .call, .sleep 5],
       .exited (some (err 2))) := by
  simp [retry_on_exception, retry_loop, hf 0, hf 1, hf 2]

/-- Witness for C3 at a concrete always-failing step. -/
theorem C3_retry_envelope_exhausts_witness :
    retry_on_exception 3 5
        (fun _ => (.error (.formFieldNotFound ["districts"]) :
          Except StepError Unit)) =
      ([.call, .sleep 5, .call, .sleep 5, .call, .sleep 5],
       .exited (some (.formFieldNotFound ["districts"]))) :=
  C3_retry_envelope_exhausts (A := Unit)
    (fun _ => .error (StepError.formFieldNotFound ["districts"]))
    (fun _ => StepError.formFieldNotFound ["districts"]) (fun _ => rfl)

/-- Counterexample to claim C1: `get_jamabandi_page` assigns the extracted
values to the instance fields before validating them, so a response missing
the viewstate leaves the token set changed (here: the previously held
viewstate is clobbered and event_arg/viewstate_generator are overwritten)
even though the step fails with `FormFieldNotFoundException`. -/
theorem C1_counterexample :
    (get_jamabandi_page
        { viewstate := some "A", event_arg := some "B",
          event_validation := some "C", viewstate_generator := some "D" }
        { viewstate := none, event_arg := some "E",
          event_validation := some "F", viewstate_generator := some "G" }).2 =
      .error (.formFieldNotFound ["viewstate", "event_validation",
                                  "viewstate_generator"])
    ∧ (get_jamabandi_page
        { viewstate := some "A", event_arg := some "B",
          event_validation := some "C", viewstate_generator := some "D" }
        { viewstate := none, event_arg := some "E",
          event_validation := some "F", viewstate_generator := some "G" }).1 ≠
      { viewstate := some "A", event_arg := some "B",
        event_validation := some "C", viewstate_generator := some "D" } :=
  ⟨rfl, by decide⟩

/-- Claim C1 as amended: for every cascading step, a response missing the
viewstate or the event_validation fails with `FormFieldNotFoundException` and
leaves the held token set exactly unchanged; the initial step
(`get_jamabandi_page`) also fails, but only after overwriting the token set
with whatever the response did contain. -/
theorem C1_amended_token_preservation :
    (∀ (st : TokenSet) (resp : ListResponse),
       (!truthy resp.viewstate || !truthy resp.event_validation) = true →
       get_districts st resp =
         (st, .error (.formFieldNotFound ["viewstate", "event_validation"])))
  ∧ (∀ (st : TokenSet) (resp : ListResponse),
       (!truthy resp.viewstate || !truthy resp.event_validation) = true →
       get_sub_districts st resp =
         (st, .error (.formFieldNotFound ["viewstate", "event_validation"])))
  ∧ (∀ (st : TokenSet) (resp : ListResponse),
       (!truthy resp.viewstate || !truthy resp.event_validation) = true →
       get_villeges st resp =
         (st, .error (.formFieldNotFound ["viewstate", "event_validation"])))
  ∧ (∀ (st : TokenSet) (resp : YearsResponse),
       (!truthy resp.viewstate || !truthy resp.event_validation) = true →
       get_years st resp =
         (st, .error (.formFieldNotFound ["viewstate", "event_validation"])))
  ∧ (∀ (st : TokenSet) (resp : ListResponse),
       (!truthy resp.viewstate || !truthy resp.event_validation) = true →
       get_khasras st resp =
         (st, .error (.formFieldNotFound ["viewstate", "event_validation"])))
  ∧ (∀ (st : TokenSet) (resp : NakalsResponse),
       (!truthy resp.viewstate || !truthy resp.event_validation) = true →
       get_nakals st resp =
         (st, .error (.formFieldNotFound ["viewstate", "event_validation"])))
  ∧ (∀ (st : TokenSet) (resp : TokenResponse),
       (!truthy resp.viewstate || !truthy resp.event_validation) = true →
       select_nakals st resp =
         (st, .error (.formFieldNotFound ["viewstate", "event_validation"])))
  ∧ (∀ (st : TokenSet) (resp : InitResponse),
       (!truthy resp.viewstate || !truthy resp.event_validation) = true →
       get_jamabandi_page st resp =
         ({ viewstate := resp.viewstate, event_arg := resp.event_arg,
            event_validation := resp.event_validation,
            viewstate_generator := resp.viewstate_generator },
          .error (.formFieldNotFound ["viewstate", "event_validation",
                                      "viewstate_generator"]))) := by
  refine ⟨?_, ?_, ?_, ?_, ?_, ?_, ?_, ?_⟩ <;> intro st resp h
  · simp [get_districts, h]
  · simp [get_sub_districts, h]
  · simp [get_villeges, h]
  · simp [get_years, h]
  · simp [get_khasras, h]
  · simp [get_nakals, h]
  · simp [select_nakals, h]
  · have hc : (!truthy resp.viewstate || !truthy resp.viewstate_generator
        || !truthy resp.event_validation) = true := by
      cases hv : truthy resp.viewstate <;>
        cases he : truthy resp.event_validation <;> simp_all
    simp [get_jamabandi_page, hc]

/-- Witness for the amended C1 at concrete inputs: a cascading step keeps the
token set; the initial step overwrites it. -/
theorem C1_amended_token_preservation_witness :
    get_districts
        { viewstate := some "A", event_arg := some "B",
          event_validation := some "C", viewstate_generator := some "D" }
        { viewstate := none, event_validation := some "x", options := [] } =
      ({ viewstate := some "A", event_arg := some "B",
         event_validation := some "C", viewstate_generator := some "D" },
       .error (.formFieldNotFound ["viewstate", "event_validation"]))
    ∧ get_jamabandi_page
        { viewstate := some "A", event_arg := some "B",
          event_validation := some "C", viewstate_generator := some "D" }
        { viewstate := none, event_arg := some "E",
          event_validation := some "F", viewstate_generator := some "G" } =
      ({ viewstate := none, event_arg := some "E",
         event_validation := some "F", viewstate_generator := some "G" },
       .error (.formFieldNotFound ["viewstate", "event_validation",
                                   "viewstate_generator"])) :=
  ⟨C1_amended_token_preservation.1 _ _ (by decide),
   C1_amended_token_preservation.2.2.2.2.2.2.2 _ _ (by decide)⟩

/-- Counterexample to claim C10: with the held event-argument equal to
`None`, the very next step (`get_districts`) does not send that `None` as
`__EVENTARGUMENT`: its payload hard-codes the empty string for that field. -/
theorem C10_counterexample :
    payloadGet (get_districts_payload
        { viewstate := some "A", event_arg := none,
          event_validation := some "C", viewstate_generator := some "D" })
        "__EVENTARGUMENT" = some (some "")
    ∧ payloadGet (get_districts_payload
        { viewstate := some "A", event_arg := none,
          event_validation := some "C", viewstate_generator := some "D" })
        "__EVENTARGUMENT" ≠ some none := by
  decide

/-- Claim C10 as amended: the initial step validates only viewstate,
viewstate_generator and event_validation, so it succeeds with
`__EVENTARGUMENT` absent, leaving the held event-argument `None`; the five
steps that forward the held event-argument (`get_sub_districts`,
`get_villeges`, `get_years`, `get_khasras`, `get_nakals`) then carry that
`None` as their `__EVENTARGUMENT` payload field, while `get_districts` sends
a constant empty string and `select_nakals` sends the chosen candidate token
instead. -/
theorem C10_amended_event_argument :
    (∀ (st : TokenSet) (resp : InitResponse),
        resp.event_arg = none →
        truthy resp.viewstate = true →
        truthy resp.viewstate_generator = true →
        truthy resp.event_validation = true →
        get_jamabandi_page st resp =
          ({ viewstate := resp.viewstate, event_arg := none,
             event_validation := resp.event_validation,
             viewstate_generator := resp.viewstate_generator }, .ok ()))
  ∧ (∀ (st : TokenSet) (dId sId vId kId : Option String) (year : String),
        st.event_arg = none →
        payloadGet (get_sub_districts_payload st dId) "__EVENTARGUMENT" = some none
        ∧ payloadGet (get_villeges_payload st dId sId) "__EVENTARGUMENT" = some none
        ∧ payloadGet (get_years_payload st dId sId vId) "__EVENTARGUMENT" = some none
        ∧ payloadGet (get_khasras_payload st dId sId vId year) "__EVENTARGUMENT"
            = some none
        ∧ payloadGet (get_nakals_payload st dId sId vId year kId) "__EVENTARGUMENT"
            = some none) := by
  constructor
  · intro st resp he hv hg hev
    simp [get_jamabandi_page, hv, hg, hev, he]
  · intro st dId sId vId kId year he
    refine ⟨?_, ?_, ?_, ?_, ?_⟩ <;>
      simp [payloadGet, get_sub_districts_payload, get_villeges_payload,
        get_years_payload, get_khasras_payload, get_nakals_payload, he]

/-- Witness for the amended C10 at a concrete token-less-event-argument
state. -/
theorem C10_amended_event_argument_witness :
    get_jamabandi_page initState
        { viewstate := some "V", event_arg := none,
          event_validation := some "E", viewstate_generator := some "G" } =
      ({ viewstate := some "V", event_arg := none,
         event_validation := some "E", viewstate_generator := some "G" }, .ok ())
    ∧ payloadGet (get_sub_districts_payload
        { viewstate := some "V", event_arg := none,
          event_validation := some "E", viewstate_generator := some "G" }
        (some "01")) "__EVENTARGUMENT" = some none :=
  ⟨C10_amended_event_argument.1 _ _ rfl (by decide) (by decide) (by decide),
   (C10_amended_event_argument.2
     { viewstate := some "V", event_arg := none, event_validation := some "E",
       viewstate_generator := some "G" }
     (some "01") none none none "y" rfl).1⟩

/-- Counterexample to claim C2: a candidate table with zero rows makes
`get_nakals` itself raise `FormFieldNotFoundException(['nakals',
'nakal_detail'])`; that exception is retried by the Retry Envelope (three
attempts, then fatal exit), and the run aborts instead of returning the
Orchestrator's structured "Nakal is empty!" result, which is unreachable. -/
theorem C2_counterexample :
    (get_nakals
        { viewstate := some "a", event_arg := some "b",
          event_validation := some "c", viewstate_generator := some "d" }
        { viewstate := some "v", event_validation := some "e", rows := [] }).2 =
      .error (.formFieldNotFound ["nakals", "nakal_detail"])
    ∧ retry_on_exception 3 5 (fun _ =>
        (get_nakals
          { viewstate := some "a", event_arg := some "b",
            event_validation := some "c", viewstate_generator := some "d" }
          { viewstate := some "v", event_validation := some "e",
            rows := [] }).2) =
      ([.call, .sleep 5, .call, .sleep 5, .call, .sleep 5],
       .exited (some (.formFieldNotFound ["nakals", "nakal_detail"])))
    ∧ (extract_data envEmptyNakals "DistrictA" "TehsilA" "VillageA" "6").2 =
      .fatalExit (.formFieldNotFound ["nakals", "nakal_detail"])
    ∧ (extract_data envEmptyNakals "DistrictA" "TehsilA" "VillageA" "6").2 ≠
      .errString "Nakal is empty!" := by
  refine ⟨rfl, ?_, rfl, by decide⟩
  rfl

/-- Claim C6: every cascading POST payload repeats every previously resolved
code of the resolution chain (district, then sub-district, village, year,
khasra code, as accumulated so far), carries the three refreshed token fields
with the held values plus the `__EVENTARGUMENT` field, and the constant
protocol keys (`__EVENTTARGET`, the `RdobtnKhasra` mode key) — not only the
newest code. -/
theorem C6_payload_repeats_all_codes (st : TokenSet)
    (dId sId vId kId : Option String) (year nakal_id : String) :
    (payloadGet (get_districts_payload st) "__VIEWSTATE" = some st.viewstate
     ∧ payloadGet (get_districts_payload st) "__VIEWSTATEGENERATOR"
         = some st.viewstate_generator
     ∧ payloadGet (get_districts_payload st) "__EVENTVALIDATION"
         = some st.event_validation
     ∧ (payloadGet (get_districts_payload st) "__EVENTARGUMENT").isSome = true
     ∧ payloadGet (get_districts_payload st) "ctl00$ContentPlaceHolder1$a"
         = some (some "RdobtnKhasra")
     ∧ payloadGet (get_districts_payload st) "ctl00$ContentPlaceHolder1$ddldname"
         = some (some "-1"))
  ∧ (payloadGet (get_sub_districts_payload st dId) "__VIEWSTATE" = some st.viewstate
     ∧ payloadGet (get_sub_districts_payload st dId) "__VIEWSTATEGENERATOR"
         = some st.viewstate_generator
     ∧ payloadGet (get_sub_districts_payload st dId) "__EVENTVALIDATION"
         = some st.event_validation
     ∧ payloadGet (get_sub_districts_payload st dId) "__EVENTARGUMENT"
         = some st.event_arg
     ∧ payloadGet (get_sub_districts_payload st dId) "ctl00$ContentPlaceHolder1$a"
         = some (some "RdobtnKhasra")
     ∧ payloadGet (get_sub_districts_payload st dId) "ctl00$ContentPlaceHolder1$ddldname"
         = some dId)
  ∧ (payloadGet (get_villeges_payload st dId sId) "__VIEWSTATE" = some st.viewstate
     ∧ payloadGet (get_villeges_payload st dId sId) "__VIEWSTATEGENERATOR"
         = some st.viewstate_generator
     ∧ payloadGet (get_villeges_payload st dId sId) "__EVENTVALIDATION"
         = some st.event_validation
     ∧ payloadGet (get_villeges_payload st dId sId) "__EVENTARGUMENT"
         = some st.event_arg
     ∧ payloadGet (get_villeges_payload st dId sId) "ctl00$ContentPlaceHolder1$a"
         = some (some "RdobtnKhasra")
     ∧ payloadGet (get_villeges_payload st dId sId) "ctl00$ContentPlaceHolder1$ddldname"
         = some dId
     ∧ payloadGet (get_villeges_payload st dId sId) "ctl00$ContentPlaceHolder1$ddltname"
         = some sId)
  ∧ (payloadGet (get_years_payload st dId sId vId) "__VIEWSTATE" = some st.viewstate
     ∧ payloadGet (get_years_payload st dId sId vId) "__VIEWSTATEGENERATOR"
         = some st.viewstate_generator
     ∧ payloadGet (get_years_payload st dId sId vId) "__EVENTVALIDATION"
         = some st.event_validation
     ∧ payloadGet (get_years_payload st dId sId vId) "__EVENTARGUMENT"
         = some st.event_arg
     ∧ payloadGet (get_years_payload st dId sId vId) "ctl00$ContentPlaceHolder1$a"
         = some (some "RdobtnKhasra")
     ∧ payloadGet (get_years_payload st dId sId vId) "ctl00$ContentPlaceHolder1$ddldname"
         = some dId
     ∧ payloadGet (get_years_payload st dId sId vId) "ctl00$ContentPlaceHolder1$ddltname"
         = some sId
     ∧ payloadGet (get_years_payload st dId sId vId) "ctl00$ContentPlaceHolder1$ddlvname"
         = some vId)
  ∧ (payloadGet (get_khasras_payload st dId sId vId year) "__VIEWSTATE"
         = some st.viewstate
     ∧ payloadGet (get_khasras_payload st dId sId vId year) "__VIEWSTATEGENERATOR"
         = some st.viewstate_generator
     ∧ payloadGet (get_khasras_payload st dId sId vId year) "__EVENTVALIDATION"
         = some st.event_validation
     ∧ payloadGet (get_khasras_payload st dId sId vId year) "__EVENTARGUMENT"
         = some st.event_arg
     ∧ payloadGet (get_khasras_payload st dId sId vId year) "ctl00$ContentPlaceHolder1$a"
         = some (some "RdobtnKhasra")
     ∧ payloadGet (get_khasras_payload st dId sId vId year) "ctl00$ContentPlaceHolder1$ddldname"
         = some dId
     ∧ payloadGet (get_khasras_payload st dId sId vId year) "ctl00$ContentPlaceHolder1$ddltname"
         = some sId
     ∧ payloadGet (get_khasras_payload st dId sId vId year) "ctl00$ContentPlaceHolder1$ddlvname"
         = some vId
     ∧ payloadGet (get_khasras_payload st dId sId vId year) "ctl00$ContentPlaceHolder1$ddlPeriod"
         = some (some year))
  ∧ (payloadGet (get_nakals_payload st dId sId vId year kId) "__VIEWSTATE"
         = some st.viewstate
     ∧ payloadGet (get_nakals_payload st dId sId vId year kId) "__VIEWSTATEGENERATOR"
         = some st.viewstate_generator
     ∧ payloadGet (get_nakals_payload st dId sId vId year kId) "__EVENTVALIDATION"
         = some st.event_validation
     ∧ payloadGet (get_nakals_payload st dId sId vId year kId) "__EVENTARGUMENT"
         = some st.event_arg
     ∧ payloadGet (get_nakals_payload st dId sId vId year kId) "ctl00$ContentPlaceHolder1$a"
         = some (some "RdobtnKhasra")
     ∧ payloadGet (get_nakals_payload st dId sId vId year kId) "ctl00$ContentPlaceHolder1$ddldname"
         = some dId
     ∧ payloadGet (get_nakals_payload st dId sId vId year kId) "ctl00$ContentPlaceHolder1$ddltname"
         = some sId
     ∧ payloadGet (get_nakals_payload st dId sId vId year kId) "ctl00$ContentPlaceHolder1$ddlvname"
         = some vId
     ∧ payloadGet (get_nakals_payload st dId sId vId year kId) "ctl00$ContentPlaceHolder1$ddlPeriod"
         = some (some year)
     ∧ payloadGet (get_nakals_payload st dId sId vId year kId) "ctl00$ContentPlaceHolder1$ddlkhasra"
         = some kId)
  ∧ (payloadGet (select_nakals_payload st dId sId vId year kId nakal_id) "__VIEWSTATE"
         = some st.viewstate
     ∧ payloadGet (select_nakals_payload st dId sId vId year kId nakal_id) "__VIEWSTATEGENERATOR"
         = some st.viewstate_generator
     ∧ payloadGet (select_nakals_payload st dId sId vId year kId nakal_id) "__EVENTVALIDATION"
         = some st.event_validation
     ∧ payloadGet (select_nakals_payload st dId sId vId year kId nakal_id) "__EVENTARGUMENT"
         = some (some nakal_id)
     ∧ payloadGet (select_nakals_payload st dId sId vId year kId nakal_id) "ctl00$ContentPlaceHolder1$a"
         = some (some "RdobtnKhasra")
     ∧ payloadGet (select_nakals_payload st dId sId vId year kId nakal_id) "ctl00$ContentPlaceHolder1$ddldname"
         = some dId
     ∧ payloadGet (select_nakals_payload st dId sId vId year kId nakal_id) "ctl00$ContentPlaceHolder1$ddltname"
         = some sId
     ∧ payloadGet (select_nakals_payload st dId sId vId year kId nakal_id) "ctl00$ContentPlaceHolder1$ddlvname"
         = some vId
     ∧ payloadGet (select_nakals_payload st dId sId vId year kId nakal_id) "ctl00$ContentPlaceHolder1$ddlPeriod"
         = some (some year)
     ∧ payloadGet (select_nakals_payload st dId sId vId year kId nakal_id) "ctl00$ContentPlaceHolder1$ddlkhasra"
         = some kId) :=
  ⟨⟨rfl, rfl, rfl, rfl, rfl, rfl⟩,
   ⟨rfl, rfl, rfl, rfl, rfl, rfl⟩,
   ⟨rfl, rfl, rfl, rfl, rfl, rfl, rfl⟩,
   ⟨rfl, rfl, rfl, rfl, rfl, rfl, rfl, rfl⟩,
   ⟨rfl, rfl, rfl, rfl, rfl, rfl, rfl, rfl, rfl⟩,
   ⟨rfl, rfl, rfl, rfl, rfl, rfl, rfl, rfl, rfl, rfl⟩,
   ⟨rfl, rfl, rfl, rfl, rfl, rfl, rfl, rfl, rfl, rfl⟩⟩

/-- Claim C8: when the Record Store already holds a row matching the four
input names and force-refresh is disabled, the run returns the cached rows
and issues no transport request at all (the Session Engine is never
invoked). -/
theorem C8_cache_short_circuit (db : List LandRecord) (env : Env)
    (inp_district_name inp_sub_district_name inp_villege_name
     inp_khasra_no : String) (r0 : LandRecord) (rest : List LandRecord)
    (h : search_records_by_input_data db inp_district_name
      inp_sub_district_name inp_villege_name inp_khasra_no = r0 :: rest) :
    main_flow db env inp_district_name inp_sub_district_name inp_villege_name
      inp_khasra_no false = (db, [], .cached (r0 :: rest)) := by
  simp [main_flow, h]

/-- A cached row matching the canned run's four input names. -/
def recA : LandRecord :=
  { id := 1,
    data := { district_name := "DistrictA", district_code := some "01",
              tehsil_name := "TehsilA", tehsil_code := some "001",
              villege_name := "VillageA", villege_code := some "0284",
              jamabandi_year := "2022-2023", khewat_no := some "3",
              khatoni_no := some "9", khasra_code := some "6", khasra_no := "6",
              nakal_villege := some "VillageA", nakal_hadbast := some "50",
              nakal_tehsil := some "TehsilA", nakal_district := some "DistrictA",
              nakal_year := some "2022-2023" } }

/-- Witness for C8 at a concrete one-row store. -/
theorem C8_cache_short_circuit_witness :
    main_flow [recA] envC4 "DistrictA" "TehsilA" "VillageA" "6" false =
      ([recA], [], .cached [recA]) :=
  C8_cache_short_circuit [recA] envC4 "DistrictA" "TehsilA" "VillageA" "6"
    recA [] (by decide)

/-- Claim C7: a caller-supplied name absent (exact, case-sensitive key match)
from the option set a listing step returned makes the Orchestrator return the
structured not-found string naming that level immediately — the result is the
`errString` return (never a fatal transport/protocol abort) and the request
trace ends with the listing step that produced the option set (2, 3, 4 and 6
requests respectively), so nothing is retried and no further step runs. -/
theorem C7_selector_not_found :
    (∀ (env : Env) (inpD inpT inpV inpK : String) (st1 st2 : TokenSet)
       (districts : List (Option String × Option String)),
       get_jamabandi_page initState env.initResp = (st1, .ok ()) →
       get_districts st1 env.districtsResp = (st2, .ok districts) →
       dictMem districts (some inpD) = false →
       (extract_data env inpD inpT inpV inpK).2 =
         .errString ("District name:" ++ inpD ++ " not found!")
       ∧ (extract_data env inpD inpT inpV inpK).1.length = 2)
  ∧ (∀ (env : Env) (inpD inpT inpV inpK : String) (st1 st2 st3 : TokenSet)
       (districts sub_districts : List (Option String × Option String)),
       get_jamabandi_page initState env.initResp = (st1, .ok ()) →
       get_districts st1 env.districtsResp = (st2, .ok districts) →
       dictMem districts (some inpD) = true →
       get_sub_districts st2 env.subDistrictsResp = (st3, .ok sub_districts) →
       dictMem sub_districts (some inpT) = false →
       (extract_data env inpD inpT inpV inpK).2 =
         .errString ("sub-district/tehsil name:" ++ inpT ++ " not found!")
       ∧ (extract_data env inpD inpT inpV inpK).1.length = 3)
  ∧ (∀ (env : Env) (inpD inpT inpV inpK : String) (st1 st2 st3 st4 : TokenSet)
       (districts sub_districts villeges : List (Option String × Option String)),
       get_jamabandi_page initState env.initResp = (st1, .ok ()) →
       get_districts st1 env.districtsResp = (st2, .ok districts) →
       dictMem districts (some inpD) = true →
       get_sub_districts st2 env.subDistrictsResp = (st3, .ok sub_districts) →
       dictMem sub_districts (some inpT) = true →
       get_villeges st3 env.villagesResp = (st4, .ok villeges) →
       dictMem villeges (some inpV) = false →
       (extract_data env inpD inpT inpV inpK).2 =
         .errString ("Villege name:" ++ inpV ++ " not found!")
       ∧ (extract_data env inpD inpT inpV inpK).1.length = 4)
  ∧ (∀ (env : Env) (inpD inpT inpV inpK : String)
       (st1 st2 st3 st4 st5 st6 : TokenSet)
       (districts sub_districts villeges khasras :
         List (Option String × Option String))
       (year0 : String) (years_rest : List String),
       get_jamabandi_page initState env.initResp = (st1, .ok ()) →
       get_districts st1 env.districtsResp = (st2, .ok districts) →
       dictMem districts (some inpD) = true →
       get_sub_districts st2 env.subDistrictsResp = (st3, .ok sub_districts) →
       dictMem sub_districts (some inpT) = true →
       get_villeges st3 env.villagesResp = (st4, .ok villeges) →
       dictMem villeges (some inpV) = true →
       get_years st4 env.yearsResp = (st5, .ok (year0 :: years_rest)) →
       get_khasras st5 env.khasrasResp = (st6, .ok khasras) →
       dictMem khasras (some inpK) = false →
       (extract_data env inpD inpT inpV inpK).2 =
         .errString ("Khasra number:" ++ inpK ++ " not found!")
       ∧ (extract_data env inpD inpT inpV inpK).1.length = 6) := by
  refine ⟨?_, ?_, ?_, ?_⟩
  · intro env inpD inpT inpV inpK st1 st2 districts h1 h2 hd
    unfold extract_data
    simp only [h1, h2, hd, reduceIte]
    simp
  · intro env inpD inpT inpV inpK st1 st2 st3 districts sub_districts
      h1 h2 hd h3 ht
    unfold extract_data
    simp only [h1, h2, hd, h3, ht, reduceIte]
    simp
  · intro env inpD inpT inpV inpK st1 st2 st3 st4 districts sub_districts
      villeges h1 h2 hd h3 ht h4 hv
    unfold extract_data
    simp only [h1, h2, hd, h3, ht, h4, hv, reduceIte]
    simp
  · intro env inpD inpT inpV inpK st1 st2 st3 st4 st5 st6 districts
      sub_districts villeges khasras year0 years_rest h1 h2 hd h3 ht h4 hv
      h5 h6 hk
    unfold extract_data
    simp only [h1, h2, hd, h3, ht, h4, hv, h5, h6, hk, reduceIte]
    simp

/-- Witness for C7 on the canned responses: an unknown district name and an
unknown khasra number each yield the structured message at the right level
with the trace cut at the listing step. -/
theorem C7_selector_not_found_witness :
    ((extract_data envC4 "Nope" "TehsilA" "VillageA" "6").2 =
        .errString "District name:Nope not found!"
     ∧ (extract_data envC4 "Nope" "TehsilA" "VillageA" "6").1.length = 2)
    ∧ ((extract_data envC4 "DistrictA" "TehsilA" "VillageA" "99").2 =
        .errString "Khasra number:99 not found!"
     ∧ (extract_data envC4 "DistrictA" "TehsilA" "VillageA" "99").1.length = 6) :=
  ⟨C7_selector_not_found.1 envC4 "Nope" "TehsilA" "VillageA" "6" _ _ _
     rfl rfl (by decide),
   C7_selector_not_found.2.2.2 envC4 "DistrictA" "TehsilA" "VillageA" "99"
     _ _ _ _ _ _ _ _ _ _ "2022-2023" [] rfl rfl (by decide) rfl (by decide)
     rfl (by decide) rfl rfl (by decide)⟩

/-- The last element of `a :: l` as an option. -/
theorem getLast?_cons_getLastD (a : NakalRow) (l : List NakalRow) :
    (a :: l).getLast? = some (l.getLastD a) := by
  induction l generalizing a with
  | nil => rfl
  | cons b m ih => rw [List.getLast?_cons_cons, ih, List.getLastD_cons]

/-- The candidate loop on rows that all carry a link: accumulates one id per
row in row order and ends holding the LAST row's confirmation fields. -/
theorem nakalsLoop_ok (rows : List NakalRow) (acc : List String)
    (d : NakalDetail) (h : ∀ r ∈ rows, r.href.isSome = true) :
    nakalsLoop rows acc d =
      .ok (acc ++ rows.map (fun r => mkNakalId (r.href.getD "")),
           match rows.getLast? with
           | none => d
           | some r => { khewat_no := r.khewat, khatoni_no := r.khatoni }) := by
  induction rows generalizing acc d with
  | nil => simp [nakalsLoop]
  | cons r rest ih =>
    have hr : r.href.isSome = true := h r (by simp)
    obtain ⟨hv, hhv⟩ := Option.isSome_iff_exists.mp hr
    have hrest : ∀ q ∈ rest, q.href.isSome = true := by
      intro q hq; exact h q (by simp [hq])
    rw [show nakalsLoop (r :: rest) acc d =
          nakalsLoop rest (acc ++ [mkNakalId hv])
            { khewat_no := r.khewat, khatoni_no := r.khatoni } by
        simp [nakalsLoop, hhv]]
    rw [ih _ _ hrest]
    cases hl : rest with
    | nil => simp [hhv]
    | cons b m => simp [hhv, getLast?_cons_getLastD]

/-- Claim C5: candidate handling is a deterministic function of row order.
First conjunct: on any non-empty candidate table whose rows all carry links,
`get_nakals` returns the ids in row order (so the head corresponds to the
first row) and the confirmation fields of the LAST row.  Second conjunct: on
any successful run, the Orchestrator selects the FIRST entry of the id list
`get_nakals` returned (it appears as the `select_nakals` postback argument),
uses the FIRST entry of the years option set for the khasra/nakal/selection
steps and the result, and returns exactly the held confirmation-field pair. -/
theorem C5_deterministic_selection :
    (∀ (st : TokenSet) (resp : NakalsResponse) (row0 : NakalRow)
       (rowrest : List NakalRow),
       resp.rows = row0 :: rowrest →
       truthy resp.viewstate = true → truthy resp.event_validation = true →
       (∀ r ∈ resp.rows, r.href.isSome = true) →
       get_nakals st resp =
         ({ st with viewstate := resp.viewstate,
                    event_validation := resp.event_validation },
          .ok ((row0 :: rowrest).map (fun r => mkNakalId (r.href.getD "")),
               { khewat_no := (rowrest.getLastD row0).khewat,
                 khatoni_no := (rowrest.getLastD row0).khatoni })))
  ∧ (∀ (env : Env) (inpD inpT inpV inpK : String)
       (st1 st2 st3 st4 st5 st6 st7 st8 : TokenSet)
       (districts sub_districts villeges khasras :
         List (Option String × Option String))
       (year0 : String) (years_rest : List String)
       (nakal0 : String) (nakals_rest : List String)
       (nakal_detail : NakalDetail),
       get_jamabandi_page initState env.initResp = (st1, .ok ()) →
       get_districts st1 env.districtsResp = (st2, .ok districts) →
       dictMem districts (some inpD) = true →
       get_sub_districts st2 env.subDistrictsResp = (st3, .ok sub_districts) →
       dictMem sub_districts (some inpT) = true →
       get_villeges st3 env.villagesResp = (st4, .ok villeges) →
       dictMem villeges (some inpV) = true →
       get_years st4 env.yearsResp = (st5, .ok (year0 :: years_rest)) →
       get_khasras st5 env.khasrasResp = (st6, .ok khasras) →
       dictMem khasras (some inpK) = true →
       get_nakals st6 env.nakalsResp =
         (st7, .ok (nakal0 :: nakals_rest, nakal_detail)) →
       select_nakals st7 env.selectResp = (st8, .ok ()) →
       (extract_data env inpD inpT inpV inpK).2 =
         .output
           { district_name := inpD,
             district_code := dictGetV districts (some inpD),
             tehsil_name := inpT,
             tehsil_code := dictGetV sub_districts (some inpT),
             villege_name := inpV,
             villege_code := dictGetV villeges (some inpV),
             jamabandi_year := year0,
             khewat_no := nakal_detail.khewat_no,
             khatoni_no := nakal_detail.khatoni_no,
             khasra_code := dictGetV khasras (some inpK),
             khasra_no := inpK,
             inner_details :=
               { villege := env.document.villege,
                 hadbast_no := env.document.hadbast,
                 tehsil := env.document.tehsil,
                 district := env.document.district,
                 year := env.document.year } }
       ∧ { step := "select_nakals",
           payload := select_nakals_payload st7 (dictGetV districts (some inpD))
             (dictGetV sub_districts (some inpT)) (dictGetV villeges (some inpV))
             year0 (dictGetV khasras (some inpK)) nakal0 } ∈
           (extract_data env inpD inpT inpV inpK).1) := by
  constructor
  · intro st resp row0 rowrest hrows hv he hhref
    rw [hrows] at hhref
    have hloop := nakalsLoop_ok (row0 :: rowrest) []
      { khewat_no := some "", khatoni_no := some "" } hhref
    rw [getLast?_cons_getLastD] at hloop
    simp only [get_nakals, hrows, hv, he]
    simp [hloop]
  · intro env inpD inpT inpV inpK st1 st2 st3 st4 st5 st6 st7 st8 districts
      sub_districts villeges khasras year0 years_rest nakal0 nakals_rest
      nakal_detail h1 h2 hd h3 ht h4 hv h5 h6 hk h7 h8
    unfold extract_data
    simp only [h1, h2, h3, h4, h5, h6, h7, h8, hd, ht, hv, hk, reduceIte]
    constructor
    · rfl
    · simp

/-- A two-candidate-row canned sequence (ids in rows 0 and 1, distinct
confirmation fields per row). -/
def envTwoRows : Env :=
  { envC4 with nakalsResp :=
      { viewstate := some "vs6", event_validation := some "ev6",
        rows := [{ href := some "Select$0\x27)", khewat := some "3",
                   khatoni := some "9" },
                 { href := some "Select$1\x27)", khewat := some "31",
                   khatoni := some "91" }] } }

/-- Witness for C5 on a concrete two-row candidate table: the id list keeps
row order, the confirmation fields are the second (last) row's, and the run
selects the first id while reporting the last row's fields. -/
theorem C5_deterministic_selection_witness :
    get_nakals
        { viewstate := some "a", event_arg := some "b",
          event_validation := some "c", viewstate_generator := some "d" }
        envTwoRows.nakalsResp =
      ({ viewstate := some "vs6", event_arg := some "b",
         event_validation := some "ev6", viewstate_generator := some "d" },
       .ok (["Select$0", "Select$1"],
            { khewat_no := some "31", khatoni_no := some "91" }))
    ∧ (extract_data envTwoRows "DistrictA" "TehsilA" "VillageA" "6").2 =
      .output
        { district_name := "DistrictA", district_code := some "01",
          tehsil_name := "TehsilA", tehsil_code := some "001",
          villege_name := "VillageA", villege_code := some "0284",
          jamabandi_year := "2022-2023",
          khewat_no := some "31", khatoni_no := some "91",
          khasra_code := some "6", khasra_no := "6",
          inner_details := { villege := some "VillageA",
                             hadbast_no := some "50",
                             tehsil := some "TehsilA",
                             district := some "DistrictA",
                             year := some "2022-2023" } }
    ∧ { step := "select_nakals",
        payload := select_nakals_payload
          { viewstate := some "vs6", event_arg := some "ea0",
            event_validation := some "ev6", viewstate_generator := some "vg0" }
          (some "01") (some "001") (some "0284") "2022-2023" (some "6")
          "Select$0" } ∈
        (extract_data envTwoRows "DistrictA" "TehsilA" "VillageA" "6").1 := by
  have hA := C5_deterministic_selection.1
      { viewstate := some "a", event_arg := some "b",
        event_validation := some "c", viewstate_generator := some "d" }
      envTwoRows.nakalsResp
      { href := some "Select$0\x27)", khewat := some "3", khatoni := some "9" }
      [{ href := some "Select$1\x27)", khewat := some "31", khatoni := some "91" }]
      rfl (by decide) (by decide) (by decide)
  have hB := C5_deterministic_selection.2 envTwoRows "DistrictA" "TehsilA"
      "VillageA" "6"
      { viewstate := some "vs0", event_arg := some "ea0",
        event_validation := some "ev0", viewstate_generator := some "vg0" }
      { viewstate := some "vs1", event_arg := some "ea0",
        event_validation := some "ev1", viewstate_generator := some "vg0" }
      { viewstate := some "vs2", event_arg := some "ea0",
        event_validation := some "ev2", viewstate_generator := some "vg0" }
      { viewstate := some "vs3", event_arg := some "ea0",
        event_validation := some "ev3", viewstate_generator := some "vg0" }
      { viewstate := some "vs4", event_arg := some "ea0",
        event_validation := some "ev4", viewstate_generator := some "vg0" }
      { viewstate := some "vs5", event_arg := some "ea0",
        event_validation := some "ev5", viewstate_generator := some "vg0" }
      { viewstate := some "vs6", event_arg := some "ea0",
        event_validation := some "ev6", viewstate_generator := some "vg0" }
      { viewstate := some "vs7", event_arg := some "ea0",
        event_validation := some "ev7", viewstate_generator := some "vg0" }
      [(some "DistrictA", some "01")] [(some "TehsilA", some "001")]
      [(some "VillageA", some "0284")] [(some "6", some "6")]
      "2022-2023" [] "Select$0"
      ["Select$1"] { khewat_no := some "31", khatoni_no := some "91" }
      (by decide) (by decide) (by decide) (by decide) (by decide) (by decide)
      (by decide) (by decide) (by decide) (by decide) (by decide) (by decide)
  refine ⟨hA.trans (by decide), hB.1.trans (by decide), ?_⟩
  have he : ({ step := "select_nakals",
               payload := select_nakals_payload
                 ({ viewstate := some "vs6", event_arg := some "ea0",
                    event_validation := some "ev6",
                    viewstate_generator := some "vg0" } : TokenSet)
                 (some "01") (some "001") (some "0284") "2022-2023" (some "6")
                 "Select$0" } : Request) =
             ({ step := "select_nakals",
                payload := select_nakals_payload
                  ({ viewstate := some "vs6", event_arg := some "ea0",
                     event_validation := some "ev6",
                     viewstate_generator := some "vg0" } : TokenSet)
                  (dictGetV [(some "DistrictA", some "01")] (some "DistrictA"))
                  (dictGetV [(some "TehsilA", some "001")] (some "TehsilA"))
                  (dictGetV [(some "VillageA", some "0284")] (some "VillageA"))
                  "2022-2023" (dictGetV [(some "6", some "6")] (some "6"))
                  "Select$0" } : Request) := by decide
  rw [he]
  exact hB.2

/-- Claim C2 as amended: when the candidate-listing step receives a response
with zero candidate rows (tokens present), the step itself raises
`FormFieldNotFoundException(['nakals', 'nakal_detail'])`; under the Retry
Envelope this failure repeats on every attempt of the deterministic response
and the run aborts fatally — the Orchestrator's structured "Nakal is empty!"
return is not produced (it is unreachable). -/
theorem C2_amended_empty_candidates (env : Env)
    (inpD inpT inpV inpK : String) (st1 st2 st3 st4 st5 st6 : TokenSet)
    (districts sub_districts villeges khasras :
      List (Option String × Option String))
    (year0 : String) (years_rest : List String)
    (h1 : get_jamabandi_page initState env.initResp = (st1, .ok ()))
    (h2 : get_districts st1 env.districtsResp = (st2, .ok districts))
    (hd : dictMem districts (some inpD) = true)
    (h3 : get_sub_districts st2 env.subDistrictsResp = (st3, .ok sub_districts))
    (ht : dictMem sub_districts (some inpT) = true)
    (h4 : get_villeges st3 env.villagesResp = (st4, .ok villeges))
    (hv : dictMem villeges (some inpV) = true)
    (h5 : get_years st4 env.yearsResp = (st5, .ok (year0 :: years_rest)))
    (h6 : get_khasras st5 env.khasrasResp = (st6, .ok khasras))
    (hk : dictMem khasras (some inpK) = true)
    (hrows : env.nakalsResp.rows = [])
    (hnv : truthy env.nakalsResp.viewstate = true)
    (hne : truthy env.nakalsResp.event_validation = true) :
    (extract_data env inpD inpT inpV inpK).2 =
      .fatalExit (.formFieldNotFound ["nakals", "nakal_detail"])
    ∧ (extract_data env inpD inpT inpV inpK).2 ≠
      .errString "Nakal is empty!" := by
  have h7 : get_nakals st6 env.nakalsResp =
      ({ st6 with viewstate := env.nakalsResp.viewstate,
                  event_validation := env.nakalsResp.event_validation },
       .error (.formFieldNotFound ["nakals", "nakal_detail"])) := by
    simp [get_nakals, hrows, hnv, hne, nakalsLoop]
  unfold extract_data
  simp only [h1, h2, hd, h3, ht, h4, hv, h5, h6, hk, h7, reduceIte]
  simp

/-- Witness for the amended C2 on the canned responses with an empty
candidate table. -/
theorem C2_amended_empty_candidates_witness :
    (extract_data envEmptyNakals "DistrictA" "TehsilA" "VillageA" "6").2 =
      .fatalExit (.formFieldNotFound ["nakals", "nakal_detail"])
    ∧ (extract_data envEmptyNakals "DistrictA" "TehsilA" "VillageA" "6").2 ≠
      .errString "Nakal is empty!" :=
  C2_amended_empty_candidates envEmptyNakals "DistrictA" "TehsilA" "VillageA"
    "6"
    { viewstate := some "vs0", event_arg := some "ea0",
      event_validation := some "ev0", viewstate_generator := some "vg0" }
    { viewstate := some "vs1", event_arg := some "ea0",
      event_validation := some "ev1", viewstate_generator := some "vg0" }
    { viewstate := some "vs2", event_arg := some "ea0",
      event_validation := some "ev2", viewstate_generator := some "vg0" }
    { viewstate := some "vs3", event_arg := some "ea0",
      event_validation := some "ev3", viewstate_generator := some "vg0" }
    { viewstate := some "vs4", event_arg := some "ea0",
      event_validation := some "ev4", viewstate_generator := some "vg0" }
    { viewstate := some "vs5", event_arg := some "ea0",
      event_validation := some "ev5", viewstate_generator := some "vg0" }
    [(some "DistrictA", some "01")] [(some "TehsilA", some "001")]
    [(some "VillageA", some "0284")] [(some "6", some "6")]
    "2022-2023" []
    (by decide) (by decide) (by decide) (by decide) (by decide) (by decide)
    (by decide) (by decide) (by decide) (by decide) rfl (by decide) (by decide)

/-- `updateFirst` touches only the data columns: the id column sequence is
unchanged. -/
theorem updateFirst_map_id (db : List LandRecord) (rid : Nat)
    (d : RecordData) :
    (updateFirst db rid d).map (fun r => r.id) = db.map (fun r => r.id) := by
  induction db with
  | nil => rfl
  | cons r rs ih =>
    by_cases h : (r.id == rid) = true
    · simp [updateFirst, h]
    · simp only [updateFirst, h]
      simp [ih]

/-- `updateFirst` never inserts or removes a row. -/
theorem updateFirst_length (db : List LandRecord) (rid : Nat)
    (d : RecordData) :
    (updateFirst db rid d).length = db.length := by
  have h := congrArg List.length (updateFirst_map_id db rid d)
  simpa using h

/-- The primary-key `first()` lookup used by `update_record` succeeds for the
id of any stored row and returns a row with that id. -/
theorem find?_id_of_mem (db : List LandRecord) (r0 : LandRecord)
    (h : r0 ∈ db) :
    ∃ q, db.find? (fun r => r.id == r0.id) = some q ∧ q.id = r0.id := by
  induction db with
  | nil => cases h
  | cons r rs ih =>
    by_cases hr : (r.id == r0.id) = true
    · exact ⟨r, by simp [List.find?_cons, hr], eq_of_beq hr⟩
    · have h1 : r0 ∈ rs := by
        rcases List.mem_cons.mp h with h0 | h0
        · subst h0; simp at hr
        · exact h0
      obtain ⟨q, hq, hid⟩ := ih h1
      exact ⟨q, by simp [List.find?_cons, hr, hq], hid⟩

/-- Claim C9: with force-refresh enabled and a matching Record Store row
present, the run still performs the full extraction (its transport trace is
exactly the step sequence's trace) and then updates the matching row in
place: the row with the matched id now holds the freshly extracted data, the
id sequence of the store is unchanged, and no second row is created. -/
theorem C9_force_refresh_updates_in_place (db : List LandRecord) (env : Env)
    (inpD inpT inpV inpK : String) (r0 : LandRecord) (rest : List LandRecord)
    (tr : List Request) (out : Output)
    (hsearch : search_records_by_input_data db inpD inpT inpV inpK = r0 :: rest)
    (hx : extract_data env inpD inpT inpV inpK = (tr, .output out)) :
    main_flow db env inpD inpT inpV inpK true =
      (updateFirst db r0.id (dataOf out), tr,
       .saved (some { id := r0.id, data := dataOf out }))
    ∧ (updateFirst db r0.id (dataOf out)).map (fun r => r.id) =
        db.map (fun r => r.id)
    ∧ (updateFirst db r0.id (dataOf out)).length = db.length := by
  have hmem0 : r0 ∈ search_records_by_input_data db inpD inpT inpV inpK := by
    rw [hsearch]; exact List.mem_cons_self r0 rest
  have hmem : r0 ∈ db := by
    unfold search_records_by_input_data at hmem0
    exact List.mem_of_mem_filter hmem0
  obtain ⟨q, hq, hqid⟩ := find?_id_of_mem db r0 hmem
  refine ⟨?_, updateFirst_map_id db r0.id (dataOf out),
          updateFirst_length db r0.id (dataOf out)⟩
  have hrec : ({ q with data := dataOf out } : LandRecord) =
      { id := r0.id, data := dataOf out } := by
    cases q; simp_all
  unfold main_flow create_record_by_checking_record update_record
  rw [hsearch, hx]
  simp [hq, hrec]

/-- The resolved output of the canned run (used to instantiate C9). -/
def outA : Output :=
  { district_name := "DistrictA", district_code := some "01",
    tehsil_name := "TehsilA", tehsil_code := some "001",
    villege_name := "VillageA", villege_code := some "0284",
    jamabandi_year := "2022-2023", khewat_no := some "3",
    khatoni_no := some "9", khasra_code := some "6", khasra_no := "6",
    inner_details := { villege := some "VillageA", hadbast_no := some "50",
                       tehsil := some "TehsilA", district := some "DistrictA",
                       year := some "2022-2023" } }

/-- Witness for C9: a one-row store whose row matches the canned run's four
names is updated in place under force-refresh. -/
theorem C9_force_refresh_updates_in_place_witness :
    main_flow [recA] envC4 "DistrictA" "TehsilA" "VillageA" "6" true =
      (updateFirst [recA] recA.id (dataOf outA),
       (extract_data envC4 "DistrictA" "TehsilA" "VillageA" "6").1,
       .saved (some { id := recA.id, data := dataOf outA }))
    ∧ (updateFirst [recA] recA.id (dataOf outA)).map (fun r => r.id) =
        [recA].map (fun r => r.id)
    ∧ (updateFirst [recA] recA.id (dataOf outA)).length = [recA].length :=
  C9_force_refresh_updates_in_place [recA] envC4 "DistrictA" "TehsilA"
    "VillageA" "6" recA []
    (extract_data envC4 "DistrictA" "TehsilA" "VillageA" "6").1 outA
    (by decide) rfl

end Jamabandi
